import Mathlib

/-!
Verification of the e-mail assistant repository.

This file gives a shallow embedding, in Lean, of the parts of the program
that the checked properties talk about:

* the record store (`src/modules/memory_manager.py`): the `emails`,
  `responses` tables and the `save_email`, `save_response`,
  `get_emails_by_thread` operations.  A table is embedded as a list of rows
  in insertion order; the primary-key column behaves as in the underlying
  SQL engine: an INSERT whose key is already present fails with a
  uniqueness error.
* the mail integration (`src/modules/email_integration.py`): the recursive
  body extraction `_get_email_body` over the provider's nested part
  structure (payload data is embedded already base64-decoded), the tag
  removing regex substitution, and the header construction of `send_email`.
  Headers are embedded as an ordered list of name/value pairs, because the
  underlying message object appends on index assignment and never
  overwrites an existing header with the same name.
* the send-response dispatch handler (`src/app.py`), embedded as a function
  from the operator's inputs to the updated responses table plus the
  ordered trace of side effects it performs.
* the calendar integration (`src/modules/calendar_integration.py`):
  `get_available_slots`, with parsed datetimes embedded as wall-clock
  minutes after midnight together with an optional UTC offset (`none` for
  a naive datetime), so that the source's naive/aware subtraction
  `TypeError` and the surrounding `except` path returning `[]` are part
  of the model.
* the meeting-details parser of `src/modules/llm_processor.py`.
* the search integration (`src/modules/search_integration.py`), with the
  provider outcome (HTTP status plus decoded JSON body, or a raised
  exception) as an explicit input.

Python string primitives that the source uses (`strip`, `startswith`,
`split`) are transliterated onto lists of characters so that every
definition evaluates inside the kernel.
-/

namespace EmailAssistant

/-! ## Character-level string primitives used by the Python source -/

/-- Python `str.strip()` on the character list: drop leading and trailing
whitespace. -/
def trimChars (l : List Char) : List Char :=
  ((l.dropWhile Char.isWhitespace).reverse.dropWhile Char.isWhitespace).reverse

/-- Python `str.strip()` on strings. -/
def strTrim (s : String) : String := String.mk (trimChars s.toList)

/-- Python `s.startswith(pre)`. -/
def strStartsWith (s pre : String) : Bool := pre.toList.isPrefixOf s.toList

/-- Python `s.split('\n')` on the character list: split at every newline,
keeping empty pieces, as Python does for a non-empty separator. -/
def splitOnNewline : List Char → List (List Char)
  | [] => [[]]
  | c :: rest =>
    let r := splitOnNewline rest
    if c = '\n' then [] :: r
    else
      match r with
      | [] => [[c]]
      | l :: ls => (c :: l) :: ls

/-- Python `line.split(':', 1)`: `some (before, after)` at the first colon,
`none` when the line has no colon (where the source instead guards with
`':' in line`). -/
def splitFirstColon : List Char → Option (List Char × List Char)
  | [] => none
  | c :: rest =>
    if c = ':' then some ([], rest)
    else
      match splitFirstColon rest with
      | some (k, v) => some (c :: k, v)
      | none => none

/-! ## Record store (src/modules/memory_manager.py) -/

/-- One row of the `emails` table (class `Email`, memory_manager.py:20-33).
Timestamps are embedded as naturals. -/
structure EmailRow where
  id : String
  sender : String
  recipient : String
  subject : String
  body : String
  timestamp : Nat
  thread_id : String
  has_attachment : Bool
deriving DecidableEq

/-- The dictionary accepted by `save_email` (memory_manager.py:123-141):
`timestamp` and `has_attachment` are optional, defaulting to the current
time and `False`. -/
structure EmailData where
  id : String
  sender : String
  recipient : String
  subject : String
  body : String
  timestamp : Option Nat
  thread_id : String
  has_attachment : Option Bool
deriving DecidableEq

/-- One row of the `responses` table (class `Response`,
memory_manager.py:68-77). -/
structure ResponseRow where
  id : String
  email_id : String
  content : String
  timestamp : Nat
  sent : Bool
deriving DecidableEq

/-- The dictionary accepted by `save_response` (memory_manager.py:161-176):
`timestamp` defaults to the current time and `sent` to `False`. -/
structure ResponseData where
  id : String
  email_id : String
  content : String
  timestamp : Option Nat
  sent : Option Bool
deriving DecidableEq

/-- `save_email` (memory_manager.py:123-141).  The function constructs a new
`Email` object, `session.add`s it and commits: a plain SQL INSERT.  When a
row with the same primary key `id` is already stored, the commit raises the
engine's uniqueness violation, which `save_email` does not catch; this is
embedded as the `Except.error` branch.  Otherwise the new row is appended. -/
def save_email (db : List EmailRow) (d : EmailData) (now : Nat) :
    Except String (List EmailRow) :=
  if db.any (fun r => r.id == d.id) then
    Except.error "UNIQUE constraint failed: emails.id"
  else
    Except.ok (db ++ [{ id := d.id, sender := d.sender, recipient := d.recipient,
                        subject := d.subject, body := d.body,
                        timestamp := d.timestamp.getD now,
                        thread_id := d.thread_id,
                        has_attachment := d.has_attachment.getD false }])

/-- `save_response` (memory_manager.py:161-176), same INSERT semantics as
`save_email`. -/
def save_response (db : List ResponseRow) (d : ResponseData) (now : Nat) :
    Except String (List ResponseRow) :=
  if db.any (fun r => r.id == d.id) then
    Except.error "UNIQUE constraint failed: responses.id"
  else
    Except.ok (db ++ [{ id := d.id, email_id := d.email_id, content := d.content,
                        timestamp := d.timestamp.getD now,
                        sent := d.sent.getD false }])

/-- Comparison used by `ORDER BY emails.timestamp` in `get_emails_by_thread`
(memory_manager.py:119). -/
def tsLe (a b : EmailRow) : Prop := a.timestamp ≤ b.timestamp

instance : DecidableRel tsLe := fun a b => Nat.decLe a.timestamp b.timestamp

instance : IsTotal EmailRow tsLe := ⟨fun a b => Nat.le_total a.timestamp b.timestamp⟩

instance : IsTrans EmailRow tsLe := ⟨fun _ _ _ h1 h2 => Nat.le_trans h1 h2⟩

/-- `get_emails_by_thread` (memory_manager.py:115-121): the rows whose
`thread_id` matches, ordered by timestamp ascending (`ORDER BY` of a SQL
engine, embedded as a sort of the filtered rows). -/
def get_emails_by_thread (db : List EmailRow) (tid : String) : List EmailRow :=
  List.insertionSort tsLe (db.filter (fun r => r.thread_id == tid))

/-! ## Body extraction (email_integration.py:133-151) -/

/-- The provider's nested payload: a mime type, the (base64-decoded) body
data with `""` standing for an absent or empty `body.data` field (both are
falsy in the source's `payload['body'].get('data')` check), and the list of
nested parts with `[]` standing for an absent `parts` key. -/
inductive Payload where
  | mk (mimeType : String) (data : String) (parts : List Payload)

/-- Mime type of a part. -/
def Payload.mimeType : Payload → String
  | Payload.mk m _ _ => m

/-- Body data of a part (`""` when absent). -/
def Payload.data : Payload → String
  | Payload.mk _ d _ => d

/-- Nested parts of a part (`[]` when absent). -/
def Payload.parts : Payload → List Payload
  | Payload.mk _ _ ps => ps

/-- State of the scanner embedding `re.sub('<[^<]+?>', '', html)`
(email_integration.py:145): outside any candidate match, just past a `<`,
or inside a candidate with the inner characters read so far. -/
inductive TagState where
  | outside
  | afterOpen
  | inTag (buf : List Char)

/-- Left-to-right scanner for `re.sub('<[^<]+?>', '', html)`: a match is a
`<`, then at least one character none of which is `<` (a `>` may occur
inside), then the first following `>`; matches are deleted, everything else
is kept.  A candidate that meets another `<` before closing fails, its
characters are emitted, and scanning restarts at that `<`; a candidate
still open at the end of input is emitted verbatim. -/
def stripTagsAux : List Char → TagState → List Char
  | [], TagState.outside => []
  | [], TagState.afterOpen => ['<']
  | [], TagState.inTag buf => '<' :: buf
  | c :: rest, TagState.outside =>
    if c = '<' then stripTagsAux rest TagState.afterOpen
    else c :: stripTagsAux rest TagState.outside
  | c :: rest, TagState.afterOpen =>
    if c = '<' then '<' :: stripTagsAux rest TagState.afterOpen
    else stripTagsAux rest (TagState.inTag [c])
  | c :: rest, TagState.inTag buf =>
    if c = '>' then stripTagsAux rest TagState.outside
    else if c = '<' then '<' :: (buf ++ stripTagsAux rest TagState.afterOpen)
    else stripTagsAux rest (TagState.inTag (buf ++ [c]))

/-- `re.sub('<[^<]+?>', '', html)` as used on html bodies
(email_integration.py:143-145). -/
def stripTags (s : String) : String := String.mk (stripTagsAux s.toList TagState.outside)

mutual

/-- `_get_email_body` (email_integration.py:133-151).  If the payload itself
carries body data it is returned; otherwise the parts are scanned in order
by `scanParts`; with no parts the sentinel is returned. -/
def getEmailBody : Payload → String
  | Payload.mk _ d parts => if d ≠ "" then d else scanParts parts

/-- The `for part in payload['parts']` loop of `_get_email_body`
(email_integration.py:139-151): the first part that is a `text/plain` leaf
with data returns its data; a `text/html` leaf with data returns it with
tags removed; a part that has nested parts returns the recursive extraction
when that is non-empty; after the loop, the sentinel is returned. -/
def scanParts : List Payload → String
  | [] => "No content found"
  | p :: rest =>
    if p.mimeType = "text/plain" ∧ p.data ≠ "" then p.data
    else if p.mimeType = "text/html" ∧ p.data ≠ "" then stripTags p.data
    else if p.parts.isEmpty = false then
      (if getEmailBody p ≠ "" then getEmailBody p else scanParts rest)
    else scanParts rest

end

/-! ## Reply construction (email_integration.py:153-205) -/

/-- The headers of the original message that `send_email` fetches when
`reply_to_message_id` is set (email_integration.py:161-166).  `messageId` is
`none` when no `Message-ID` header is present (the source tests
`'Message-ID' in headers`); `references` and `subject` carry the values of
`headers.get('References', '')` and `headers.get('Subject', '')`, with `""`
for an absent header as in the source. -/
structure OrigHeaders where
  messageId : Option String
  references : String
  subject : String
deriving DecidableEq

/-- The header list of the outgoing message built by `send_email`
(email_integration.py:156-184), in construction order.  Assigning to the
message object (`message['to'] = ...`) appends a header and never replaces
an existing one with the same name, so the embedding is an ordered list of
name/value pairs that only grows. -/
def buildHeaders (toAddr subject : String) (reply : Option OrigHeaders) :
    List (String × String) :=
  let hs := [("to", toAddr), ("subject", subject)]
  match reply with
  | none => hs
  | some o =>
    let hs := match o.messageId with
      | some m => hs ++ [("In-Reply-To", m)]
      | none => hs
    let refs := match o.messageId with
      | some m => (if o.references ≠ "" then o.references ++ " " else "") ++ m
      | none => o.references
    let hs := if refs ≠ "" then hs ++ [("References", refs)] else hs
    if strStartsWith subject "Re:" = false ∧ strTrim o.subject ≠ "" then
      hs ++ [("subject", "Re: " ++ o.subject)]
    else hs

/-- All values carried by headers of a given name, in message order. -/
def headerValues (hs : List (String × String)) (name : String) : List String :=
  (hs.filter (fun h => h.1 == name)).map Prod.snd

/-! ## Send-response dispatch handler (app.py:218-241) -/

/-- The argument record of a `send_email` call. -/
structure SendParams where
  toAddr : String
  subject : String
  body : String
  replyTo : Option String
deriving DecidableEq

/-- One observable side effect of the dispatch handler: persisting a
response row, or invoking the mail send. -/
inductive DispatchEvent where
  | persist (r : ResponseRow)
  | send (p : SendParams)
deriving DecidableEq

/-- The `Send Response` click handler (app.py:218-241).  It first saves a
response row built from a fresh uuid `rid`, the selected email's id, the
operator-edited text and `sent=True`, and only then invokes
`gmail.send_email(to=sender, subject="Re: "+subject, body=edited,
reply_to_message_id=emailId)`.  The pending draft text (`draftText`, the
generated `st.session_state.draft_response`) is not used by the dispatch.
The result is the updated responses table together with the ordered trace
of side effects; a failing save propagates as an error (the handler does
not catch it) and in that case the send is never reached. -/
def send_response_action (db : List ResponseRow) (rid : String) (now : Nat)
    (emailId sender subject draftText editedText : String) :
    Except String (List ResponseRow × List DispatchEvent) :=
  match save_response db { id := rid, email_id := emailId, content := editedText,
                           timestamp := some now, sent := some true } now with
  | Except.error e => Except.error e
  | Except.ok db2 =>
    Except.ok (db2,
      [DispatchEvent.persist { id := rid, email_id := emailId, content := editedText,
                               timestamp := now, sent := true },
       DispatchEvent.send { toAddr := sender, subject := "Re: " ++ subject,
                            body := editedText, replyTo := some emailId }])

/-! ## Free-slot computation (calendar_integration.py:143-196) -/

/-- A parsed Python datetime as `get_available_slots` handles it, reduced
to the walk's single date: the wall-clock minutes after midnight together
with the UTC offset in minutes — `none` for a naive datetime.  The window
bounds built by `datetime.combine(date, time(9,0))` and `(17,0)` are
naive; an event's `start.dateTime`/`end.dateTime` string goes through
`fromisoformat(s.replace('Z', '+00:00'))`, which yields an offset-aware
value for the RFC3339 offset-carrying strings the calendar provider
returns, and a naive one only when the string carries no offset. -/
structure PyDateTime where
  minutes : Int
  offset : Option Int
deriving DecidableEq

/-- Python datetime subtraction followed by `.total_seconds() / 60`
(exact in whole minutes): defined between two naive or two aware values
(the latter compared as UTC instants), and raising `TypeError` — caught
only by the routine's outermost `except` — when naive and aware are
mixed. -/
def dtSub : PyDateTime → PyDateTime → Except String Int
  | PyDateTime.mk m1 none, PyDateTime.mk m2 none => Except.ok (m1 - m2)
  | PyDateTime.mk m1 (some o1), PyDateTime.mk m2 (some o2) =>
    Except.ok ((m1 - o1) - (m2 - o2))
  | _, _ =>
    Except.error "TypeError: can't subtract offset-naive and offset-aware datetimes"

/-- One provider event as `get_available_slots` reads it: the parsed
optional `start.dateTime` and `end.dateTime`. -/
structure CalEvent where
  startDT : Option PyDateTime
  endDT : Option PyDateTime
deriving DecidableEq

/-- The event walk of `get_available_slots`
(calendar_integration.py:165-190), with `current` the running cursor
(initially the naive window start).  An event without `start.dateTime` is
skipped entirely; otherwise the gap `start - current` is computed (a
raised `TypeError` propagates out of the walk), a slot
`(current, start)` is emitted when the gap is at least `d` minutes, and
the cursor moves to the event's end when `end.dateTime` is present.
After the last event the trailing gap `time_max - current` up to the
naive window end (17:00 = 1020 minutes) is emitted when it fits.  Slot
bounds are the wall-clock `strftime('%H:%M')` times. -/
def findFreeSlots : List CalEvent → PyDateTime → Int → Except String (List (Int × Int))
  | [], current, d =>
    match dtSub (PyDateTime.mk 1020 none) current with
    | Except.error e => Except.error e
    | Except.ok gap => Except.ok (if gap ≥ d then [(current.minutes, 1020)] else [])
  | e :: rest, current, d =>
    match e.startDT with
    | none => findFreeSlots rest current d
    | some s =>
      match dtSub s current with
      | Except.error e2 => Except.error e2
      | Except.ok gap =>
        match findFreeSlots rest (match e.endDT with | some en => en | none => current) d with
        | Except.error e3 => Except.error e3
        | Except.ok more =>
          Except.ok ((if gap ≥ d then [(current.minutes, s.minutes)] else []) ++ more)

/-- `get_available_slots` (calendar_integration.py:143-196): walk the day's
events from the naive 09:00 window start (540 minutes); the surrounding
`try/except` (lines 144, 194-196) turns any raised error into a printed
message and an empty list. -/
def get_available_slots (events : List CalEvent) (d : Int) : List (Int × Int) :=
  match findFreeSlots events (PyDateTime.mk 540 none) d with
  | Except.ok slots => slots
  | Except.error _ => []

/-! ## Meeting-details parsing (llm_processor.py:100-131) -/

/-- Python dict assignment `meeting_details[k] = v` on an insertion-ordered
association list: replace in place when the key exists, append otherwise. -/
def dictInsert (d : List (String × String)) (k v : String) :
    List (String × String) :=
  if d.any (fun p => p.1 == k) then
    d.map (fun p => if p.1 == k then (k, v) else p)
  else d ++ [(k, v)]

/-- One iteration of the parsing loop of `extract_meeting_details`
(llm_processor.py:126-129): when the line has a colon, split at the first
colon and store the stripped key and value; otherwise leave the dict
unchanged. -/
def parseDetailLine (d : List (String × String)) (line : String) :
    List (String × String) :=
  match splitFirstColon line.toList with
  | some (k, v) => dictInsert d (strTrim (String.mk k)) (strTrim (String.mk v))
  | none => d

/-- The parsing phase of `extract_meeting_details` (llm_processor.py:122-131)
applied to the generated text: `result.strip().split('\n')`, then the
per-line loop. -/
def extract_meeting_details (text : String) : List (String × String) :=
  (((splitOnNewline (trimChars text.toList)).map String.mk).foldl parseDetailLine [])

/-! ## Search integration (src/modules/search_integration.py) -/

/-- One element of the provider's `items` array; each of the three fields
read by `search` may be absent. -/
structure SearchItem where
  title : Option String
  link : Option String
  snippet : Option String
deriving DecidableEq

/-- The decoded JSON body of the provider response; `items` may be absent
(the source guards with `'items' in data`). -/
structure SearchData where
  items : Option (List SearchItem)
deriving DecidableEq

/-- What the provider interaction inside `search` produced: a response with
a status code and decoded body, or an exception raised anywhere in the
`try` block. -/
inductive ProviderOutcome where
  | response (statusCode : Int) (data : SearchData)
  | exception
deriving DecidableEq

/-- A fully-shaped search result as built by `search`
(search_integration.py:51-56): exactly the three string fields, absent
provider fields replaced by `""`. -/
structure SearchResult where
  title : String
  link : String
  snippet : String
deriving DecidableEq

/-- The `for item in data['items']` loop of `search`
(search_integration.py:50-56): one result per item, in item order, each
field defaulted to `""` by `item.get(..., '')`. -/
def collectResults : List SearchItem → List SearchResult
  | [] => []
  | it :: rest =>
    { title := it.title.getD "", link := it.link.getD "",
      snippet := it.snippet.getD "" } :: collectResults rest

/-- `search` (search_integration.py:13-62) as a function of the provider
outcome: an exception or a non-200 status yields `[]`; otherwise the items
(empty when the `items` key is absent) are collected. -/
def search (pr : ProviderOutcome) : List SearchResult :=
  match pr with
  | ProviderOutcome.exception => []
  | ProviderOutcome.response status data =>
    if status ≠ 200 then []
    else
      match data.items with
      | some items => collectResults items
      | none => []

/-- The numbered rendering loop of `format_results_for_llm`
(search_integration.py:79-82), starting at index 1. -/
def formatResultsAux : Nat → List SearchResult → String
  | _, [] => ""
  | i, r :: rest =>
    toString i ++ ". " ++ r.title ++ "\n   URL: " ++ r.link ++ "\n   " ++
      r.snippet ++ "\n\n" ++ formatResultsAux (i + 1) rest

/-- `format_results_for_llm` (search_integration.py:64-84). -/
def format_results_for_llm (results : List SearchResult) : String :=
  if results = [] then "No search results found."
  else "Search Results:\n\n" ++ formatResultsAux 1 results

/-- `search_and_format` (search_integration.py:86-98). -/
def search_and_format (pr : ProviderOutcome) : String :=
  format_results_for_llm (search pr)

/-! ## Concrete values used in the statements below -/

/-- An ingested email dictionary, as `_parse_email` hands it to
`save_email`. -/
def exEmailData : EmailData :=
  { id := "m1", sender := "alice@example.com", recipient := "bob@example.com",
    subject := "Hello", body := "Hi", timestamp := some 100,
    thread_id := "t1", has_attachment := some false }

/-- The stored row corresponding to `exEmailData`. -/
def exEmailRow : EmailRow :=
  { id := "m1", sender := "alice@example.com", recipient := "bob@example.com",
    subject := "Hello", body := "Hi", timestamp := 100,
    thread_id := "t1", has_attachment := false }

/-- A multipart payload whose html leaf is listed before its plain leaf. -/
def htmlBeforePlain : Payload :=
  Payload.mk "multipart/alternative" ""
    [Payload.mk "text/html" "<b>H</b>" [], Payload.mk "text/plain" "P" []]

/-- A multipart payload whose plain leaf is listed before its html leaf. -/
def plainBeforeHtml : Payload :=
  Payload.mk "multipart/alternative" ""
    [Payload.mk "text/plain" "Hello" [], Payload.mk "text/html" "<b>x</b>" []]

/-- A multipart payload with one html leaf only. -/
def htmlOnlyPayload : Payload :=
  Payload.mk "multipart/alternative" ""
    [Payload.mk "text/html" "<p>Hi <b>there</b></p>" []]

/-- A multipart payload without any textual leaf. -/
def noTextPayload : Payload :=
  Payload.mk "multipart/mixed" "" [Payload.mk "image/png" "" []]

/-- A multipart payload whose first part is a contentless subtree and whose
second part is a plain leaf. -/
def emptySubtreeFirst : Payload :=
  Payload.mk "multipart/mixed" ""
    [Payload.mk "multipart/alternative" "" [Payload.mk "image/png" "" []],
     Payload.mk "text/plain" "P" []]

/-- A stored email with the later timestamp. -/
def rowLate : EmailRow :=
  { id := "m1", sender := "a@x", recipient := "b@x", subject := "s1",
    body := "b1", timestamp := 50, thread_id := "t1", has_attachment := false }

/-- A stored email with the earlier timestamp. -/
def rowEarly : EmailRow :=
  { id := "m2", sender := "a@x", recipient := "b@x", subject := "s2",
    body := "b2", timestamp := 20, thread_id := "t1", has_attachment := false }

/-! ## Helper lemmas -/

/-- A string with a space appended between two pieces is never empty. -/
theorem append_space_append_ne_empty (a b : String) : (a ++ " ") ++ b ≠ "" := by
  intro h
  have hl := congrArg String.length h
  simp [String.length_append] at hl
  exact absurd hl.1.2 (by decide)

/-- A line without a colon makes `splitFirstColon` fail, as `':' in line`
does in the source. -/
theorem splitFirstColon_eq_none (l : List Char) (h : ':' ∉ l) :
    splitFirstColon l = none := by
  induction l with
  | nil => rfl
  | cons c rest ih =>
    rw [List.mem_cons] at h
    push_neg at h
    have hc : ¬(c = ':') := fun hh => h.1 hh.symm
    simp [splitFirstColon, hc, ih h.2]

/-! ## The checked claims -/

/-- C1: the claim says `save_email` is an insert-or-replace keyed by `id`,
so that saving the same provider message id twice leaves one row and does
not fail.  The code instead performs a plain INSERT: the theorem evaluates
the store at the failing input — the first save of `exEmailData` stores one
row, and the second save of the very same id raises the engine's
uniqueness violation instead of replacing the row. -/
theorem save_email_second_ingest_fails :
    save_email [] exEmailData 0 = Except.ok [exEmailRow] ∧
    save_email [exEmailRow] exEmailData 0
      = Except.error "UNIQUE constraint failed: emails.id" :=
  ⟨rfl, rfl⟩

/-- C2 counterexample: in a multipart payload whose `text/html` leaf
(`<b>H</b>`) is listed before its `text/plain` leaf (`P`), extraction
returns the stripped html `H`, not the plain content `P` — so a plain leaf
does not take precedence over an html leaf. -/
theorem plain_precedence_refuted :
    getEmailBody htmlBeforePlain = "H" ∧ getEmailBody htmlBeforePlain ≠ "P" :=
  ⟨rfl, by decide⟩

/-- C2 amended: body extraction scans the parts of a level in document
order and the first part that yields content wins: a `text/plain` leaf
returns its data unmodified, a `text/html` leaf returns its data with tags
regex-removed, and a part with nested parts contributes its recursive
extraction — which is the truthy sentinel when the subtree is contentless,
so such a subtree also ends the scan.  With no textual leaf anywhere the
sentinel is returned; plain wins over html only through document order. -/
theorem body_extraction_scan_order :
    (∀ (mt d : String) (ps rest : List Payload), d ≠ "" →
      getEmailBody (Payload.mk mt "" (Payload.mk "text/plain" d ps :: rest)) = d) ∧
    (∀ (mt d : String) (ps rest : List Payload), d ≠ "" →
      getEmailBody (Payload.mk mt "" (Payload.mk "text/html" d ps :: rest))
        = stripTags d) ∧
    getEmailBody plainBeforeHtml = "Hello" ∧
    getEmailBody htmlOnlyPayload = "Hi there" ∧
    getEmailBody noTextPayload = "No content found" ∧
    getEmailBody emptySubtreeFirst = "No content found" := by
  refine ⟨?_, ?_, rfl, rfl, rfl, rfl⟩
  · intro mt d ps rest h
    simp [getEmailBody, scanParts, Payload.mimeType, Payload.data, h]
  · intro mt d ps rest h
    simp [getEmailBody, scanParts, Payload.mimeType, Payload.data, h]

/-- C2 witness for the amended statement: a plain leaf listed first is
returned unmodified. -/
theorem body_extraction_scan_order_witness :
    ("P" : String) ≠ "" ∧
    getEmailBody (Payload.mk "multipart/alternative" ""
      (Payload.mk "text/plain" "P" [] :: [])) = "P" :=
  ⟨by decide, body_extraction_scan_order.1 "multipart/alternative" "P" [] [] (by decide)⟩

/-- C3: firing the Send dispatch on a drafted email persists exactly one
Response row — id fresh, `sent=true`, content equal to the operator-edited
text and not the pending draft text — and the persist precedes the send
invocation in the handler's side-effect trace; the send parameters are the
original sender, the `Re: `-prefixed subject, the edited body and the
original message id. -/
theorem sent_dispatch_persists_before_send :
    ∀ (db : List ResponseRow) (rid : String) (now : Nat)
      (emailId sender subject draftText editedText : String),
      db.any (fun r => r.id == rid) = false →
      send_response_action db rid now emailId sender subject draftText editedText
        = Except.ok
            (db ++ [{ id := rid, email_id := emailId, content := editedText,
                      timestamp := now, sent := true }],
             [DispatchEvent.persist { id := rid, email_id := emailId,
                                      content := editedText, timestamp := now,
                                      sent := true },
              DispatchEvent.send { toAddr := sender, subject := "Re: " ++ subject,
                                   body := editedText,
                                   replyTo := some emailId }]) := by
  intro db rid now emailId sender subject draftText editedText h
  simp [send_response_action, save_response, h]

/-- C3 witness: the dispatch at a concrete fresh id, with a draft text that
differs from the edited text. -/
theorem sent_dispatch_persists_before_send_witness :
    ([] : List ResponseRow).any (fun r => r.id == "r1") = false ∧
    send_response_action [] "r1" 5 "m1" "alice@x" "Hello" "the draft" "the edit"
      = Except.ok
          ([{ id := "r1", email_id := "m1", content := "the edit",
              timestamp := 5, sent := true }],
           [DispatchEvent.persist { id := "r1", email_id := "m1",
                                    content := "the edit", timestamp := 5,
                                    sent := true },
            DispatchEvent.send { toAddr := "alice@x", subject := "Re: Hello",
                                 body := "the edit", replyTo := some "m1" }]) :=
  ⟨rfl, sent_dispatch_persists_before_send [] "r1" 5 "m1" "alice@x" "Hello"
    "the draft" "the edit" rfl⟩

/-- C4: when replying to an original message that carries a Message-ID `m`,
the constructed message has exactly one In-Reply-To header, valued `m`, and
exactly one References header, valued the original References chain with
`m` appended space-separated (just `m` when the chain is empty); in
particular an empty chain gives References `<abc@x>`, and chain `<abc@x>`
with Message-ID `<def@y>` gives References `<abc@x> <def@y>`. -/
theorem reply_threading_headers :
    (∀ (toA subject : String) (o : OrigHeaders) (m : String),
      o.messageId = some m → m ≠ "" →
      headerValues (buildHeaders toA subject (some o)) "In-Reply-To" = [m] ∧
      headerValues (buildHeaders toA subject (some o)) "References"
        = [if o.references = "" then m else (o.references ++ " ") ++ m]) ∧
    headerValues (buildHeaders "u@x" "Re: Hi"
      (some (OrigHeaders.mk (some "<abc@x>") "" "Hi"))) "References"
      = ["<abc@x>"] ∧
    headerValues (buildHeaders "u@x" "Re: Hi"
      (some (OrigHeaders.mk (some "<abc@x>") "" "Hi"))) "In-Reply-To"
      = ["<abc@x>"] ∧
    headerValues (buildHeaders "u@x" "Re: Hi"
      (some (OrigHeaders.mk (some "<def@y>") "<abc@x>" "Hi"))) "References"
      = ["<abc@x> <def@y>"] := by
  refine ⟨?_, rfl, rfl, rfl⟩
  rintro toA subject ⟨mid, refs, osub⟩ m hm hne
  obtain rfl : mid = some m := hm
  by_cases hr : refs = ""
  · subst hr
    constructor
    · simp [buildHeaders, headerValues, hne]
      split_ifs <;> simp
    · simp [buildHeaders, headerValues, hne]
      split_ifs <;> simp
  · constructor
    · simp [buildHeaders, headerValues, hr, append_space_append_ne_empty refs m]
      split_ifs <;> simp
    · simp [buildHeaders, headerValues, hr, append_space_append_ne_empty refs m]
      split_ifs <;> simp

/-- C4 witness: the general statement at a concrete original message. -/
theorem reply_threading_headers_witness :
    (OrigHeaders.mk (some "<def@y>") "<abc@x>" "Budget").messageId = some "<def@y>" ∧
    headerValues (buildHeaders "u@x" "Re: Budget"
      (some (OrigHeaders.mk (some "<def@y>") "<abc@x>" "Budget"))) "In-Reply-To"
      = ["<def@y>"] :=
  ⟨rfl, (reply_threading_headers.1 "u@x" "Re: Budget"
    (OrigHeaders.mk (some "<def@y>") "<abc@x>" "Budget") "<def@y>" rfl
    (by decide)).1⟩

/-- C5: the claim says the final subject of a reply carries the `Re: `
prefix exactly once, e.g. replying with subject `Budget` on an original
subject `Budget` yields final subject `Re: Budget`.  The message object's
index assignment appends headers instead of replacing them, so that reply
is constructed with two subject headers — the unprefixed `Budget` first and
`Re: Budget` second — and the message's leading subject stays `Budget`;
only a reply whose subject already starts with `Re:` gets a single subject
header. -/
theorem reply_subject_header_appended_not_replaced :
    headerValues (buildHeaders "a@x" "Budget"
      (some (OrigHeaders.mk (some "<m1@x>") "" "Budget"))) "subject"
      = ["Budget", "Re: Budget"] ∧
    (headerValues (buildHeaders "a@x" "Budget"
      (some (OrigHeaders.mk (some "<m1@x>") "" "Budget"))) "subject").head?
      = some "Budget" ∧
    headerValues (buildHeaders "a@x" "Re: Budget"
      (some (OrigHeaders.mk (some "<m1@x>") "" "Budget"))) "subject"
      = ["Re: Budget"] :=
  ⟨rfl, rfl, rfl⟩

/-- C6: the claim says one existing event 10:00-10:30 and a requested
duration of 60 minutes yield exactly the two slots 09:00-10:00 and
10:30-17:00.  With the offset-aware datetimes that the provider's RFC3339
`start.dateTime` strings parse to, the very first gap subtraction mixes
the aware event start with the naive window cursor, raises `TypeError`,
and the routine's outer `except` swallows it — so the code returns `[]`
for the claim's scenario, not the two slots.  The walk itself is the
intended algorithm: the same scenario with (hypothetical) naive event
datetimes does return exactly the two claimed slots, so the spec
describes the intent and the naive/aware mixing is the slip. -/
theorem available_slots_tz_mismatch_returns_empty :
    get_available_slots
        [CalEvent.mk (some (PyDateTime.mk 600 (some 0)))
          (some (PyDateTime.mk 630 (some 0)))] 60 = [] ∧
    findFreeSlots
        [CalEvent.mk (some (PyDateTime.mk 600 (some 0)))
          (some (PyDateTime.mk 630 (some 0)))] (PyDateTime.mk 540 none) 60
      = Except.error
          "TypeError: can't subtract offset-naive and offset-aware datetimes" ∧
    get_available_slots
        [CalEvent.mk (some (PyDateTime.mk 600 none))
          (some (PyDateTime.mk 630 none))] 60
      = [(540, 600), (630, 1020)] :=
  ⟨rfl, rfl, rfl⟩

/-- C7: the meeting-details parser splits each generated line at its first
colon into a stripped key and stripped value, ignores every line without a
colon, and keeps unrecognized keys verbatim; the claim's concrete input
parses to exactly the three expected pairs, silently dropping the malformed
line. -/
theorem meeting_details_parsing :
    extract_meeting_details
        "Date: 2024-05-01\nTime: 14:00\nBadLineNoColon\nDuration: 45"
      = [("Date", "2024-05-01"), ("Time", "14:00"), ("Duration", "45")] ∧
    (∀ (acc : List (String × String)) (line : String),
      ':' ∉ line.toList → parseDetailLine acc line = acc) ∧
    extract_meeting_details "Planet: Mars" = [("Planet", "Mars")] := by
  refine ⟨by decide, ?_, by decide⟩
  intro acc line h
  have h2 : splitFirstColon line.data = none := splitFirstColon_eq_none line.toList h
  simp [parseDetailLine, h2]

/-- C7 witness: the colonless line of the claim's input leaves the parsed
dictionary unchanged. -/
theorem meeting_details_parsing_witness :
    ':' ∉ ("BadLineNoColon" : String).toList ∧
    parseDetailLine [("Date", "2024-05-01")] "BadLineNoColon"
      = [("Date", "2024-05-01")] :=
  ⟨by decide, meeting_details_parsing.2.1 [("Date", "2024-05-01")]
    "BadLineNoColon" (by decide)⟩

/-- C8: a non-200 provider status or a provider exception makes `search`
return the empty sequence rather than an error, and `search_and_format`
then returns the literal no-results string. -/
theorem search_failure_isolation :
    (∀ (status : Int) (data : SearchData), status ≠ 200 →
      search (ProviderOutcome.response status data) = [] ∧
      search_and_format (ProviderOutcome.response status data)
        = "No search results found.") ∧
    search ProviderOutcome.exception = [] ∧
    search_and_format ProviderOutcome.exception = "No search results found." := by
  refine ⟨?_, rfl, rfl⟩
  intro status data h
  constructor
  · simp [search, h]
  · simp [search_and_format, search, format_results_for_llm, h]

/-- C8 witness: a 500 response with no items formats to the no-results
string. -/
theorem search_failure_isolation_witness :
    (500 : Int) ≠ 200 ∧
    search_and_format (ProviderOutcome.response 500 (SearchData.mk none))
      = "No search results found." :=
  ⟨by decide, (search_failure_isolation.1 500 (SearchData.mk none) (by decide)).2⟩

/-- C9: retrieving a thread returns its emails sorted by timestamp
ascending, and the retrieved rows depend on the stored rows only up to
permutation — so every insertion order of the same emails retrieves a
timestamp-ascending sequence. -/
theorem thread_retrieval_sorted :
    (∀ (db : List EmailRow) (tid : String),
      List.Sorted tsLe (get_emails_by_thread db tid)) ∧
    (∀ (db db2 : List EmailRow) (tid : String), db.Perm db2 →
      (get_emails_by_thread db tid).Perm (get_emails_by_thread db2 tid)) :=
  ⟨fun _ _ => List.sorted_insertionSort tsLe _,
   fun _ _ tid h =>
     (List.perm_insertionSort tsLe _).trans
       ((h.filter (fun r => r.thread_id == tid)).trans
         (List.perm_insertionSort tsLe _).symm)⟩

/-- C9 witness: two insertion orders of the same thread retrieve
permutation-equal (here: identical, early-timestamp-first) sequences. -/
theorem thread_retrieval_sorted_witness :
    ([rowLate, rowEarly] : List EmailRow).Perm [rowEarly, rowLate] ∧
    (get_emails_by_thread [rowLate, rowEarly] "t1").Perm
      (get_emails_by_thread [rowEarly, rowLate] "t1") :=
  ⟨List.Perm.swap rowEarly rowLate [],
   thread_retrieval_sorted.2 [rowLate, rowEarly] [rowEarly, rowLate] "t1"
     (List.Perm.swap rowEarly rowLate [])⟩

/-- C10: on a successful response, `search` returns one result per provider
item in provider order, and every result is the record with exactly the
three string fields title, link, snippet, each defaulted to the empty
string when the provider item lacks it. -/
theorem search_result_shape :
    (∀ (data : SearchData) (items : List SearchItem),
      data.items = some items →
      search (ProviderOutcome.response 200 data) = collectResults items) ∧
    (∀ items : List SearchItem, (collectResults items).length = items.length) ∧
    (∀ (items : List SearchItem) (i : Nat) (h1 : i < (collectResults items).length)
      (h2 : i < items.length),
      (collectResults items).get ⟨i, h1⟩
        = { title := (items.get ⟨i, h2⟩).title.getD "",
            link := (items.get ⟨i, h2⟩).link.getD "",
            snippet := (items.get ⟨i, h2⟩).snippet.getD "" }) := by
  refine ⟨?_, ?_, ?_⟩
  · intro data items h
    simp [search, h]
  · intro items
    induction items with
    | nil => rfl
    | cons it rest ih => simp [collectResults, ih]
  · intro items
    induction items with
    | nil =>
      intro i h1 h2
      simp [collectResults] at h1
    | cons it rest ih =>
      intro i h1 h2
      cases i with
      | zero => rfl
      | succ n =>
        exact ih n (by simpa [collectResults] using h1) (by simpa using h2)

/-- C10 witness: a one-item response with a missing snippet collects to the
fully-defaulted record. -/
theorem search_result_shape_witness :
    (SearchData.mk (some [SearchItem.mk (some "T") none (some "S")])).items
      = some [SearchItem.mk (some "T") none (some "S")] ∧
    search (ProviderOutcome.response 200
        (SearchData.mk (some [SearchItem.mk (some "T") none (some "S")])))
      = collectResults [SearchItem.mk (some "T") none (some "S")] :=
  ⟨rfl, search_result_shape.1
    (SearchData.mk (some [SearchItem.mk (some "T") none (some "S")]))
    [SearchItem.mk (some "T") none (some "S")] rfl⟩

end EmailAssistant
